import Mathlib

/-!
Shallow embedding of `src/main.py`, a FastAPI webhook receiver bridging the
WhatsApp Business Cloud API to local storage, together with proofs about the
spec claims.  JSON values, Python dictionary/list/string subscripting (with
their exception behaviour), and the side effects performed by the handler
(HTTP requests, file writes, EXIF reads, log lines) are modelled explicitly;
external libraries (httpx, aiofiles, PIL, json.dumps, PIL.ExifTags.TAGS) are
abstracted as an explicit `World` of oracles.
-/

namespace Wapp

/-- JSON values, as produced by `request.json()` and consumed by the handler. -/
inductive Json where
  | null
  | bool (b : Bool)
  | num (n : Int)
  | str (s : String)
  | arr (elems : List Json)
  | obj (fields : List (String × Json))

/-- Python `x == s` for a string literal `s`: true only when `x` is an equal
string (comparison of a string against any other Python value is `False`). -/
def Json.pyEqStr (j : Json) (s : String) : Bool :=
  match j with
  | .str t => t = s
  | _ => false

/-- Python exceptions that the embedded code can raise. -/
inductive PyErr where
  | attributeError (m : String)
  | keyError (k : String)
  | indexError
  | typeError (m : String)
  | httpError (m : String)
  | ioError (m : String)
deriving DecidableEq

/-- Rendering of a Python exception by `str(e)` (abstracted; the claims never
depend on the exact text). -/
def PyErr.pyStr : PyErr → String
  | .attributeError m => m
  | .keyError k => k
  | .indexError => "list index out of range"
  | .typeError m => m
  | .httpError m => m
  | .ioError m => m

/-- First value bound to key `k` in a Python dict, represented as an
association list. -/
def lookupField (fs : List (String × Json)) (k : String) : Option Json :=
  match fs with
  | [] => none
  | (k0, v) :: rest => if k0 = k then some v else lookupField rest k

/-- Python `x.get(k, default)`: succeeds only on a dict (any other receiver
raises `AttributeError`), returning the default when the key is absent. -/
def Json.pyGet (j : Json) (k : String) (d : Json) : Except PyErr Json :=
  match j with
  | .obj fs => .ok ((lookupField fs k).getD d)
  | _ => .error (.attributeError "object has no attribute get")

/-- Python `x[i]` for an integer index `i ≥ 0`: list indexing (raising
`IndexError` past the end), string indexing (yielding a one-character
string), `KeyError` on a dict whose keys are strings, `TypeError` otherwise. -/
def Json.pyIndexNat (j : Json) (i : Nat) : Except PyErr Json :=
  match j with
  | .arr xs =>
    match xs.get? i with
    | some x => .ok x
    | none => .error .indexError
  | .str s =>
    match s.toList.get? i with
    | some c => .ok (.str (String.singleton c))
    | none => .error .indexError
  | .obj _ => .error (.keyError "int key")
  | _ => .error (.typeError "object is not subscriptable")

/-- Python `x[k]` for a string key `k`: dict lookup raising `KeyError` when
absent, `TypeError` on any other receiver. -/
def Json.pySubStr (j : Json) (k : String) : Except PyErr Json :=
  match j with
  | .obj fs =>
    match lookupField fs k with
    | some v => .ok v
    | none => .error (.keyError k)
  | .str _ => .error (.typeError "string indices must be integers")
  | .arr _ => .error (.typeError "list indices must be integers")
  | _ => .error (.typeError "object is not subscriptable")

/-- Rendering of a JSON value inside a Python f-string, i.e. `str(x)`
(container rendering abstracted; no claim depends on the exact text). -/
def Json.interp : Json → String
  | .null => "None"
  | .bool b => cond b "True" "False"
  | .num n => toString n
  | .str s => s
  | .arr _ => "[...]"
  | .obj _ => "\x7b...\x7d"

/-- Environment configuration read at module load:
`WEBHOOK_VERIFY_TOKEN`, `GRAPH_API_TOKEN` and `PORT`, each possibly unset. -/
structure Config where
  WEBHOOK_VERIFY_TOKEN : Option String
  GRAPH_API_TOKEN : Option String
  PORT : Option String
deriving DecidableEq

/-- Python `==` between a string and a possibly-`None` environment value:
`s == None` is `False`. -/
def pyEqOpt (s : String) : Option String → Bool
  | some t => s = t
  | none => false

/-- Python truthiness of a possibly-`None` string: `None` and `""` are falsy. -/
def pyTruthy : Option String → Bool
  | some t => t ≠ ""
  | none => false

/-- Response of `GET /webhook`: either a 200 plain-text body or the
`HTTPException(status_code=403)`. -/
inductive VerifyResponse where
  | ok200 (body : String)
  | forbidden403
deriving DecidableEq

/-- `verify_webhook` (src/main.py lines 132-143): echo the challenge when the
mode is "subscribe" and the token matches the configured secret, else 403. -/
def verify_webhook (cfg : Config) (hub_mode hub_verify_token hub_challenge : String) :
    VerifyResponse :=
  if hub_mode = "subscribe" ∧ pyEqOpt hub_verify_token cfg.WEBHOOK_VERIFY_TOKEN then
    .ok200 hub_challenge
  else
    .forbidden403

/-- Response body of `GET /debug`. -/
structure DebugResponse where
  WEBHOOK_VERIFY_TOKEN : Option String
  GRAPH_API_TOKEN : Option String
  PORT : Option String
deriving DecidableEq

/-- `debug_info` (src/main.py lines 160-167): full verify token, the first five
characters of the Graph API token followed by "..." when the token is truthy
(else `None`), and the `PORT` environment variable. -/
def debug_info (cfg : Config) : DebugResponse where
  WEBHOOK_VERIFY_TOKEN := cfg.WEBHOOK_VERIFY_TOKEN
  GRAPH_API_TOKEN :=
    if pyTruthy cfg.GRAPH_API_TOKEN then
      some ((cfg.GRAPH_API_TOKEN.getD "").take 5 ++ "...")
    else
      none
  PORT := cfg.PORT

/-- A Python object appearing as an EXIF value; `pyStr` is Python's `str(·)`
of it (the handler only ever stringifies these values). -/
structure PyObj where
  pyStr : String
deriving DecidableEq

/-- Key of the metadata dict built by `get_image_metadata`: either a tag name
found in `PIL.ExifTags.TAGS` or the raw integer tag id (the default of
`TAGS.get(tag_id, tag_id)`). -/
abbrev MetaKey := String ⊕ Nat

/-- Python dict assignment `d[k] = v` on an association list: update the
existing binding in place, else append. -/
def dictInsert (d : List (MetaKey × String)) (k : MetaKey) (v : String) :
    List (MetaKey × String) :=
  if d.any (fun p => p.1 = k) then
    d.map (fun p => if p.1 = k then (k, v) else p)
  else
    d ++ [(k, v)]

/-- The metadata-building loop of `get_image_metadata` (src/main.py lines
41-44): `metadata[TAGS.get(tag_id, tag_id)] = str(value)` over the EXIF
items. -/
def exifFold (tags : Nat → Option String) (exif : List (Nat × PyObj)) :
    List (MetaKey × String) :=
  exif.foldl
    (fun d p =>
      dictInsert d
        (match tags p.1 with
         | some name => Sum.inl name
         | none => Sum.inr p.1)
        p.2.pyStr)
    []

/-- Oracles for everything outside the program: the `PIL.ExifTags.TAGS` table,
`json.dumps`, HTTP responses of the Graph API (media-URL lookup keyed by
request URL, media download keyed by URL), file-system writes, `Image.open`
followed by `_getexif` (`none` models a `None` result), and outbound POSTs. -/
structure World where
  TAGS : Nat → Option String
  dumps : List (MetaKey × String) → String
  mediaUrlResponse : String → Except PyErr Json
  download : String → Except PyErr String
  fileWrite : String → String → Except PyErr Unit
  openImage : String → Except PyErr (Option (List (Nat × PyObj)))
  post : String → Json → Except PyErr Unit

/-- `get_image_metadata` (src/main.py lines 36-50): open the image and read its
EXIF dictionary; a nonempty dictionary is rendered with `TAGS` names and
stringified values, an empty or absent one yields an error entry, and any
exception is caught and rendered as an error entry. -/
def get_image_metadata (w : World) (image_path : String) : List (MetaKey × String) :=
  match w.openImage image_path with
  | .error e => [(Sum.inl "error", e.pyStr)]
  | .ok none => [(Sum.inl "error", "No EXIF data found")]
  | .ok (some []) => [(Sum.inl "error", "No EXIF data found")]
  | .ok (some exif) => exifFold w.TAGS exif

/-- Observable side effects performed by the handler, in program order. -/
inductive Effect where
  | httpGet (url : String)
  | httpPost (url : String) (payload : Json)
  | fileWrite (path : String) (content : String)
  | exifRead (path : String)
  | logInfo (msg : String)
  | logError (msg : String)

/-- URL of the Graph API media-URL lookup for a given image id. -/
def graphMediaUrl (imageId : Json) : String :=
  "https://graph.facebook.com/v18.0/" ++ imageId.interp

/-- URL of the Graph API messages endpoint for a given business phone id. -/
def messagesUrl (phoneId : Json) : String :=
  "https://graph.facebook.com/v18.0/" ++ phoneId.interp ++ "/messages"

/-- `download_and_save_image` (src/main.py lines 52-73): GET the media-URL
lookup, take `["url"]` of its JSON, GET that URL, and write the bytes to
`images/<filename>`; returns the saved path.  Effects performed before a
failure are kept in the trace. -/
def download_and_save_image (w : World) (image_id : Json) (filename : String) :
    List Effect × Except PyErr String :=
  let url1 := graphMediaUrl image_id
  let fx1 := [Effect.httpGet url1]
  match w.mediaUrlResponse url1 with
  | .error e => (fx1, .error e)
  | .ok respJson =>
    match respJson.pySubStr "url" with
    | .error e => (fx1, .error e)
    | .ok urlJson =>
      match urlJson with
      | .str media_url =>
        let fx2 := fx1 ++ [Effect.httpGet media_url]
        match w.download media_url with
        | .error e => (fx2, .error e)
        | .ok content =>
          let image_path := "images/" ++ filename
          let fx3 := fx2 ++ [Effect.fileWrite image_path content]
          match w.fileWrite image_path content with
          | .error e => (fx3, .error e)
          | .ok _ => (fx3 ++ [Effect.logInfo ("Image saved: " ++ filename)], .ok image_path)
      | _ => (fx1, .error (.typeError "URL must be a string"))

/-- Python `str.split` with a one-character separator, on character lists:
splitting never yields the empty group list, and an empty input yields one
empty group. -/
def pySplitChars (sep : Char) : List Char → List (List Char)
  | [] => [[]]
  | c :: rest =>
    match pySplitChars sep rest with
    | [] => []
    | g :: gs => if c = sep then [] :: g :: gs else (c :: g) :: gs

/-- Python `s.split("/")` (src/main.py line 90). -/
def pySplitSlash (s : String) : List String :=
  (pySplitChars '/' s.data).map (fun cs => String.mk cs)

/-- Outcome of the type branch of the POST handler. -/
inductive Route where
  | text
  | other
  | image (imageId : Json) (caption : Json) (ext : String)

/-- Extraction of the first message (src/main.py line 80):
`body.get("entry", [\x7b\x7d])[0].get("changes", [\x7b\x7d])[0].get("value", \x7b\x7d).get("messages", [\x7b\x7d])[0]`. -/
def extractMessage (body : Json) : Except PyErr Json := do
  let e ← body.pyGet "entry" (Json.arr [Json.obj []])
  let e0 ← e.pyIndexNat 0
  let c ← e0.pyGet "changes" (Json.arr [Json.obj []])
  let c0 ← c.pyIndexNat 0
  let v ← c0.pyGet "value" (Json.obj [])
  let ms ← v.pyGet "messages" (Json.arr [Json.obj []])
  ms.pyIndexNat 0

/-- Extraction of the business phone number id (src/main.py line 81). -/
def extractPhoneNumberId (body : Json) : Except PyErr Json := do
  let e ← body.pyGet "entry" (Json.arr [Json.obj []])
  let e0 ← e.pyIndexNat 0
  let c ← e0.pyGet "changes" (Json.arr [Json.obj []])
  let c0 ← c.pyIndexNat 0
  let v ← c0.pyGet "value" (Json.obj [])
  let md ← v.pyGet "metadata" (Json.obj [])
  md.pyGet "phone_number_id" Json.null

/-- The part of the POST handler outside the `try` guard (src/main.py lines
80-90): message and phone-id extraction, the `type` branch, and for image
messages the `id`, `mime_type`, `caption` accesses and the
`mime_type.split("/")[1]` extension computation.  None of it consults the
outside world or the clock, so this is a pure function of the body. -/
def routeCore (body : Json) : Except PyErr (Json × Json × Route) := do
  let message ← extractMessage body
  let phoneId ← extractPhoneNumberId body
  let mtype ← message.pyGet "type" Json.null
  if mtype.pyEqStr "text" then
    return (message, phoneId, Route.text)
  else if mtype.pyEqStr "image" then
    let imageObj ← message.pySubStr "image"
    let imageId ← imageObj.pySubStr "id"
    let mimeJson ← imageObj.pySubStr "mime_type"
    let caption ← imageObj.pyGet "caption" (Json.str "No caption")
    match mimeJson with
    | .str mime_type =>
      match (pySplitSlash mime_type).get? 1 with
      | some ext => return (message, phoneId, Route.image imageId caption ext)
      | none => throw PyErr.indexError
    | _ => throw (PyErr.attributeError "object has no attribute split")
  else
    return (message, phoneId, Route.other)

/-- Filename built at src/main.py line 91 from `datetime.now().timestamp()`
(passed in as its string rendering) and the mime-type extension. -/
def mkFilename (ts ext : String) : String :=
  "image_" ++ ts ++ "." ++ ext

/-- The reply text built at src/main.py line 100. -/
def responseMessage (caption : Json) (metadata_str : String) : String :=
  "Image received and saved successfully!\nCaption: " ++ caption.interp ++
    "\n\nMetadata:\n" ++ metadata_str

/-- JSON payload of the confirmation POST (src/main.py lines 107-112). -/
def confirmationPayload (mFrom mId : Json) (msg : String) : Json :=
  Json.obj
    [("messaging_product", Json.str "whatsapp"), ("to", mFrom),
     ("text", Json.obj [("body", Json.str msg)]),
     ("context", Json.obj [("message_id", mId)])]

/-- JSON payload of the mark-as-read POST (src/main.py lines 119-123). -/
def readReceiptPayload (mId : Json) : Json :=
  Json.obj
    [("messaging_product", Json.str "whatsapp"), ("status", Json.str "read"),
     ("message_id", mId)]

/-- Body of the `try` guard (src/main.py lines 93-125): download and save the
image, read its EXIF metadata, then send the confirmation message and the
read receipt.  Returns the effect trace together with the exception that
escaped the block, if any; effects before a failure are kept. -/
def processImage (w : World) (message phoneId imageId caption : Json)
    (filename : String) : List Effect × Option PyErr :=
  let dl := download_and_save_image w imageId filename
  match dl.2 with
  | .error e => (dl.1, some e)
  | .ok image_path =>
    let metadata := get_image_metadata w image_path
    let fx2 := dl.1 ++
      [Effect.exifRead image_path,
       Effect.logInfo ("Image metadata: " ++ w.dumps metadata)]
    let response_message := responseMessage caption (w.dumps metadata)
    match message.pySubStr "from" with
    | .error e => (fx2, some e)
    | .ok mFrom =>
      match message.pySubStr "id" with
      | .error e => (fx2, some e)
      | .ok mId =>
        let url := messagesUrl phoneId
        let p1 := confirmationPayload mFrom mId response_message
        let fx3 := fx2 ++ [Effect.httpPost url p1]
        match w.post url p1 with
        | .error e => (fx3, some e)
        | .ok _ =>
          match message.pySubStr "id" with
          | .error e => (fx3, some e)
          | .ok mId2 =>
            let p2 := readReceiptPayload mId2
            let fx4 := fx3 ++ [Effect.httpPost url p2]
            match w.post url p2 with
            | .error e => (fx4, some e)
            | .ok _ =>
              (fx4 ++ [Effect.logInfo ("Image processed successfully: " ++ filename)],
               none)

/-- The dict returned by the POST handler. -/
def okJson : Json := Json.obj [("status", Json.str "ok")]

/-- `webhook`, the POST /webhook handler (src/main.py lines 75-129): extract
the message, branch on its type, and for images run the guarded processing,
logging and swallowing any exception it raises; exceptions raised outside the
guard propagate. -/
def webhook (w : World) (ts : String) (body : Json) :
    List Effect × Except PyErr Json :=
  let fx0 := [Effect.logInfo ("Incoming webhook message: " ++ body.interp)]
  match routeCore body with
  | .error e => (fx0, .error e)
  | .ok (_, _, Route.text) =>
    (fx0 ++ [Effect.logInfo "Received text message"], .ok okJson)
  | .ok (_, _, Route.other) => (fx0, .ok okJson)
  | .ok (message, phoneId, Route.image imageId caption ext) =>
    let filename := mkFilename ts ext
    let pr := processImage w message phoneId imageId caption filename
    match pr.2 with
    | none => (fx0 ++ pr.1, .ok okJson)
    | some e =>
      (fx0 ++ pr.1 ++ [Effect.logError ("Error processing image: " ++ e.pyStr)],
       .ok okJson)

/-- Log lines, as opposed to externally visible effects. -/
def Effect.isLog : Effect → Bool
  | .logInfo _ => true
  | .logError _ => true
  | _ => false

/-- Outbound HTTP requests. -/
def Effect.isHttp : Effect → Bool
  | .httpGet _ => true
  | .httpPost _ _ => true
  | _ => false

/-- Log lines of severity error. -/
def Effect.isLogError : Effect → Bool
  | .logError _ => true
  | _ => false

/-- The non-log (externally visible) effects of a trace, in order. -/
def realEffects (fx : List Effect) : List Effect :=
  fx.filter (fun e => !e.isLog)

/-- Number of outbound HTTP requests in a trace. -/
def httpCount (fx : List Effect) : Nat :=
  (fx.filter Effect.isHttp).length

/-- Whether an effect writes the file at `p`. -/
def isWriteTo (p : String) : Effect → Bool
  | .fileWrite q _ => q = p
  | _ => false

/-- Whether an effect reads the file at `p` (only the EXIF extraction reads
files). -/
def isReadOf (p : String) : Effect → Bool
  | .exifRead q => q = p
  | _ => false

/-- Whether an effect touches the file at `p` at all. -/
def touchesFile (p : String) (e : Effect) : Bool :=
  isWriteTo p e || isReadOf p e

/-- A concrete inbound image message used in concrete runs. -/
def cMsg : Json :=
  Json.obj
    [("type", Json.str "image"), ("from", Json.str "15557772222"),
     ("id", Json.str "wamid.X"),
     ("image",
      Json.obj
        [("id", Json.str "MEDIA1"), ("mime_type", Json.str "image/jpeg"),
         ("caption", Json.str "hello")])]

/-- A well-formed webhook body carrying `cMsg`. -/
def sampleBody : Json :=
  Json.obj
    [("entry",
      Json.arr
        [Json.obj
          [("changes",
            Json.arr
              [Json.obj
                [("value",
                  Json.obj
                    [("metadata",
                      Json.obj [("phone_number_id", Json.str "PHONE1")]),
                     ("messages", Json.arr [cMsg])])]])]])]

/-- Like `sampleBody` but a different request: another message id and sender. -/
def sampleBody2 : Json :=
  Json.obj
    [("entry",
      Json.arr
        [Json.obj
          [("changes",
            Json.arr
              [Json.obj
                [("value",
                  Json.obj
                    [("metadata",
                      Json.obj [("phone_number_id", Json.str "PHONE1")]),
                     ("messages",
                      Json.arr
                        [Json.obj
                          [("type", Json.str "image"),
                           ("from", Json.str "15557773333"),
                           ("id", Json.str "wamid.Y"),
                           ("image",
                            Json.obj
                              [("id", Json.str "MEDIA2"),
                               ("mime_type", Json.str "image/jpeg"),
                               ("caption", Json.str "again")])]])])]])]])]

/-- A webhook body whose `entry` list is empty. -/
def emptyEntryBody : Json := Json.obj [("entry", Json.arr [])]

/-- A well-formed webhook body carrying a text message. -/
def textBody : Json :=
  Json.obj
    [("entry",
      Json.arr
        [Json.obj
          [("changes",
            Json.arr
              [Json.obj
                [("value",
                  Json.obj
                    [("metadata",
                      Json.obj [("phone_number_id", Json.str "PHONE1")]),
                     ("messages",
                      Json.arr
                        [Json.obj
                          [("type", Json.str "text"),
                           ("from", Json.str "15557772222"),
                           ("id", Json.str "wamid.T")]])])]])]])]

/-- An external world in which every interaction succeeds. -/
def happyWorld : World where
  TAGS := fun tid => if tid = 271 then some "Make" else none
  dumps := fun md => toString md.length
  mediaUrlResponse := fun _ =>
    .ok (Json.obj [("url", Json.str "https://cdn.example/img1")])
  download := fun _ => .ok "BYTES"
  fileWrite := fun _ _ => .ok ()
  openImage := fun _ => .ok (some [(271, ⟨"Canon"⟩)])
  post := fun _ _ => .ok ()

/-- Like `happyWorld` but every outbound POST fails. -/
def postFailWorld : World where
  TAGS := fun tid => if tid = 271 then some "Make" else none
  dumps := fun md => toString md.length
  mediaUrlResponse := fun _ =>
    .ok (Json.obj [("url", Json.str "https://cdn.example/img1")])
  download := fun _ => .ok "BYTES"
  fileWrite := fun _ _ => .ok ()
  openImage := fun _ => .ok (some [(271, ⟨"Canon"⟩)])
  post := fun _ _ => .error (.httpError "connection reset")

/-- Like `happyWorld` but opening the saved image raises. -/
def openFailWorld : World where
  TAGS := fun tid => if tid = 271 then some "Make" else none
  dumps := fun md => toString md.length
  mediaUrlResponse := fun _ =>
    .ok (Json.obj [("url", Json.str "https://cdn.example/img1")])
  download := fun _ => .ok "BYTES"
  fileWrite := fun _ _ => .ok ()
  openImage := fun _ => .error (.ioError "boom")
  post := fun _ _ => .ok ()

/-- Like `happyWorld` but the saved image has no EXIF data. -/
def noExifWorld : World where
  TAGS := fun tid => if tid = 271 then some "Make" else none
  dumps := fun md => toString md.length
  mediaUrlResponse := fun _ =>
    .ok (Json.obj [("url", Json.str "https://cdn.example/img1")])
  download := fun _ => .ok "BYTES"
  fileWrite := fun _ _ => .ok ()
  openImage := fun _ => .ok none
  post := fun _ _ => .ok ()

/-- The message id of a body, as a string fingerprint (used only to tell two
concrete requests apart). -/
def msgIdOf (b : Json) : String :=
  match extractMessage b with
  | .ok m =>
    match m.pySubStr "id" with
    | .ok j => j.interp
    | .error _ => ""
  | .error _ => ""

/-- When the guarded image processing finishes without an exception, its
effect trace is exactly: media-URL GET, media GET, file write, saved log,
EXIF read, metadata log, confirmation POST, read-receipt POST, processed
log. -/
theorem processImage_success_shape (w : World) (m pid iid cap : Json)
    (fn : String) (hok : (processImage w m pid iid cap fn).2 = none) :
    ∃ mediaUrl content mFrom mId,
      processImage w m pid iid cap fn =
        ([Effect.httpGet (graphMediaUrl iid), Effect.httpGet mediaUrl,
          Effect.fileWrite ("images/" ++ fn) content,
          Effect.logInfo ("Image saved: " ++ fn),
          Effect.exifRead ("images/" ++ fn),
          Effect.logInfo
            ("Image metadata: " ++ w.dumps (get_image_metadata w ("images/" ++ fn))),
          Effect.httpPost (messagesUrl pid)
            (confirmationPayload mFrom mId
              (responseMessage cap (w.dumps (get_image_metadata w ("images/" ++ fn))))),
          Effect.httpPost (messagesUrl pid) (readReceiptPayload mId),
          Effect.logInfo ("Image processed successfully: " ++ fn)], none) := by
  cases hm : w.mediaUrlResponse (graphMediaUrl iid) with
  | error e =>
    exact absurd hok (by simp [processImage, download_and_save_image, hm])
  | ok rj =>
  cases hu : rj.pySubStr "url" with
  | error e =>
    exact absurd hok (by simp [processImage, download_and_save_image, hm, hu])
  | ok uj =>
  cases uj
  case null =>
    exact absurd hok (by simp [processImage, download_and_save_image, hm, hu])
  case bool b =>
    exact absurd hok (by simp [processImage, download_and_save_image, hm, hu])
  case num n =>
    exact absurd hok (by simp [processImage, download_and_save_image, hm, hu])
  case arr xs =>
    exact absurd hok (by simp [processImage, download_and_save_image, hm, hu])
  case obj fs =>
    exact absurd hok (by simp [processImage, download_and_save_image, hm, hu])
  case str mediaUrl =>
  cases hd : w.download mediaUrl with
  | error e =>
    exact absurd hok (by simp [processImage, download_and_save_image, hm, hu, hd])
  | ok content =>
  cases hw : w.fileWrite ("images/" ++ fn) content with
  | error e =>
    exact absurd hok
      (by simp [processImage, download_and_save_image, hm, hu, hd, hw])
  | ok u =>
  cases hf : m.pySubStr "from" with
  | error e =>
    exact absurd hok
      (by simp [processImage, download_and_save_image, hm, hu, hd, hw, hf])
  | ok mFrom =>
  cases hid : m.pySubStr "id" with
  | error e =>
    exact absurd hok
      (by simp [processImage, download_and_save_image, hm, hu, hd, hw, hf, hid])
  | ok mId =>
  cases hp1 : w.post (messagesUrl pid)
      (confirmationPayload mFrom mId
        (responseMessage cap (w.dumps (get_image_metadata w ("images/" ++ fn))))) with
  | error e =>
    exact absurd hok
      (by simp [processImage, download_and_save_image, hm, hu, hd, hw, hf, hid, hp1])
  | ok u1 =>
  cases hp2 : w.post (messagesUrl pid) (readReceiptPayload mId) with
  | error e =>
    exact absurd hok
      (by simp [processImage, download_and_save_image, hm, hu, hd, hw, hf, hid,
            hp1, hp2])
  | ok u2 =>
    refine ⟨mediaUrl, content, mFrom, mId, ?_⟩
    simp [processImage, download_and_save_image, hm, hu, hd, hw, hf, hid, hp1, hp2]

/-- Every outbound POST in the guarded image processing, whether or not the
block later fails, goes to the messages endpoint of the extracted phone id
and carries either the confirmation payload or the read-receipt payload. -/
theorem processImage_posts (w : World) (m pid iid cap : Json) (fn : String)
    (url : String) (p : Json)
    (hmem : Effect.httpPost url p ∈ (processImage w m pid iid cap fn).1) :
    url = messagesUrl pid ∧
    ∃ mFrom mId msg,
      p = confirmationPayload mFrom mId msg ∨ p = readReceiptPayload mId := by
  simp only [processImage, download_and_save_image] at hmem
  repeat' split at hmem
  all_goals simp at hmem
  all_goals first
    | exact ⟨hmem.1, _, _, _, Or.inl hmem.2⟩
    | exact ⟨hmem.1, Json.null, _, "", Or.inr hmem.2⟩
    | exact hmem.elim (fun h => ⟨h.1, _, _, _, Or.inl h.2⟩)
        (fun h => ⟨h.1, Json.null, _, "", Or.inr h.2⟩)

/-- The Python comparison `hub_verify_token == WEBHOOK_VERIFY_TOKEN` holds
exactly when the environment value is set and equal. -/
theorem pyEqOpt_iff (s : String) (o : Option String) :
    pyEqOpt s o = true ↔ o = some s := by
  cases o with
  | none => simp [pyEqOpt]
  | some t => simp [pyEqOpt, eq_comm]

/-- Claim C1: a GET /webhook request carrying the three query parameters is
answered with a plain-text echo of `hub.challenge` exactly when `hub.mode` is
"subscribe" and `hub.verify_token` equals the configured
`WEBHOOK_VERIFY_TOKEN`; in every other case the endpoint returns HTTP 403. -/
theorem C1_verify_webhook_challenge_iff (cfg : Config) (m v c : String) :
    (verify_webhook cfg m v c = .ok200 c ↔
      m = "subscribe" ∧ cfg.WEBHOOK_VERIFY_TOKEN = some v) ∧
    (¬ (m = "subscribe" ∧ cfg.WEBHOOK_VERIFY_TOKEN = some v) →
      verify_webhook cfg m v c = .forbidden403) := by
  unfold verify_webhook
  split
  case isTrue h =>
    obtain ⟨h1, h2⟩ := h
    have h2 := (pyEqOpt_iff v cfg.WEBHOOK_VERIFY_TOKEN).mp h2
    exact ⟨by simp [h1, h2], fun hn => absurd ⟨h1, h2⟩ hn⟩
  case isFalse h =>
    refine ⟨⟨fun hx => absurd hx (by simp), fun hx => ?_⟩, fun _ => rfl⟩
    exact absurd ⟨hx.1, (pyEqOpt_iff v cfg.WEBHOOK_VERIFY_TOKEN).mpr hx.2⟩ h

/-- Concrete instances of C1: a matching request is echoed, a wrong token is
rejected with 403. -/
theorem C1_verify_webhook_challenge_iff_witness :
    verify_webhook ⟨some "tok", none, none⟩ "subscribe" "tok" "ch" = .ok200 "ch" ∧
    verify_webhook ⟨some "tok", none, none⟩ "subscribe" "bad" "ch" = .forbidden403 :=
  ⟨(C1_verify_webhook_challenge_iff ⟨some "tok", none, none⟩ "subscribe" "tok" "ch").1.mpr
      ⟨rfl, rfl⟩,
   (C1_verify_webhook_challenge_iff ⟨some "tok", none, none⟩ "subscribe" "bad" "ch").2
      (by simp)⟩

/-- Claim C8: the GET /debug response contains the full
`WEBHOOK_VERIFY_TOKEN`, the `PORT` environment variable, and at most the
first five characters of `GRAPH_API_TOKEN` (the field is null when that token
is unset). -/
theorem C8_debug_info_discloses (cfg : Config) :
    (debug_info cfg).WEBHOOK_VERIFY_TOKEN = cfg.WEBHOOK_VERIFY_TOKEN ∧
    (debug_info cfg).PORT = cfg.PORT ∧
    (cfg.GRAPH_API_TOKEN = none → (debug_info cfg).GRAPH_API_TOKEN = none) ∧
    (∀ t, cfg.GRAPH_API_TOKEN = some t →
      (debug_info cfg).GRAPH_API_TOKEN = none ∨
      ∃ s, (debug_info cfg).GRAPH_API_TOKEN = some (s ++ "...") ∧
        s = t.take 5 ∧ s.length ≤ 5) := by
  refine ⟨rfl, rfl, fun h => ?_, fun t ht => ?_⟩
  · simp [debug_info, h, pyTruthy]
  · by_cases hz : t = ""
    · left
      simp [debug_info, ht, hz, pyTruthy]
    · right
      refine ⟨t.take 5, ?_, rfl, ?_⟩
      · simp [debug_info, ht, hz, pyTruthy]
      · calc (t.take 5).length = (t.data.take 5).length := by
              rw [String.take_eq, String.length_mk]
          _ ≤ 5 := List.length_take_le 5 t.data

/-- Concrete instance of C8: with an eight-character Graph API token only its
first five characters appear, and the full verify token appears. -/
theorem C8_debug_info_discloses_witness :
    (debug_info ⟨some "secret", some "ABCDEFGH", some "3000"⟩).WEBHOOK_VERIFY_TOKEN
        = some "secret" ∧
    ((debug_info ⟨some "secret", some "ABCDEFGH", some "3000"⟩).GRAPH_API_TOKEN = none ∨
      ∃ s, (debug_info ⟨some "secret", some "ABCDEFGH", some "3000"⟩).GRAPH_API_TOKEN
          = some (s ++ "...") ∧ s = ("ABCDEFGH" : String).take 5 ∧ s.length ≤ 5) :=
  ⟨(C8_debug_info_discloses ⟨some "secret", some "ABCDEFGH", some "3000"⟩).1,
   (C8_debug_info_discloses ⟨some "secret", some "ABCDEFGH", some "3000"⟩).2.2.2
      "ABCDEFGH" rfl⟩

/-- Claim C2: for every image-type message, any failure raised during the
guarded image processing (download, save, metadata extraction, outbound
sends) is caught, logged and swallowed: the handler still returns ok, the
raised exception is logged, and every outbound POST in the trace is one of
the two ordinary success messages, so no failure notification reaches the
sender. -/
theorem C2_image_failures_swallowed (w : World) (ts : String)
    (body m pid iid cap : Json) (ext : String)
    (hroute : routeCore body = .ok (m, pid, Route.image iid cap ext)) :
    (webhook w ts body).2 = .ok okJson ∧
    (∀ e, (processImage w m pid iid cap (mkFilename ts ext)).2 = some e →
      Effect.logError ("Error processing image: " ++ e.pyStr) ∈ (webhook w ts body).1) ∧
    (∀ url p, Effect.httpPost url p ∈ (webhook w ts body).1 →
      url = messagesUrl pid ∧
      ∃ mFrom mId msg,
        p = confirmationPayload mFrom mId msg ∨ p = readReceiptPayload mId) := by
  cases hpr : (processImage w m pid iid cap (mkFilename ts ext)).2 with
  | none =>
    refine ⟨by simp [webhook, hroute, hpr], fun e he => ?_, fun url p hmem => ?_⟩
    · cases he
    · simp [webhook, hroute, hpr] at hmem
      exact processImage_posts w m pid iid cap (mkFilename ts ext) url p hmem
  | some e0 =>
    refine ⟨by simp [webhook, hroute, hpr], fun e he => ?_, fun url p hmem => ?_⟩
    · injection he with he
      subst he
      simp [webhook, hroute, hpr]
    · simp [webhook, hroute, hpr] at hmem
      exact processImage_posts w m pid iid cap (mkFilename ts ext) url p hmem

/-- Concrete instance of C2: when both outbound POSTs fail with a network
error, the handler still answers ok. -/
theorem C2_image_failures_swallowed_witness :
    (webhook postFailWorld "100.5" sampleBody).2 = .ok okJson :=
  (C2_image_failures_swallowed postFailWorld "100.5" sampleBody cMsg
    (Json.str "PHONE1") (Json.str "MEDIA1") (Json.str "hello") "jpeg" rfl).1

/-- Claim C3 counterexample: on the JSON body whose `entry` list is empty the
handler raises an uncaught IndexError instead of returning ok. -/
theorem C3_cex_empty_entry_raises :
    (webhook happyWorld "100.5" emptyEntryBody).2 = .error PyErr.indexError := rfl

/-- Claim C3 (amended): the POST /webhook handler returns ok for every payload
except those on which the unguarded extraction code (src/main.py lines 80-90)
raises; in that case the failure is an uncaught exception determined by the
payload alone, independent of the clock and the external world. -/
theorem C3_webhook_ok_unless_extraction_raises (w : World) (ts : String)
    (body : Json) :
    (webhook w ts body).2 = .ok okJson ∨
    ∃ e, ∀ w2 ts2, (webhook w2 ts2 body).2 = .error e := by
  cases hr : routeCore body with
  | error e =>
    right
    exact ⟨e, fun w2 ts2 => by simp [webhook, hr]⟩
  | ok r =>
    left
    obtain ⟨m, pid, route⟩ := r
    cases route with
    | text => simp [webhook, hr]
    | other => simp [webhook, hr]
    | image iid cap ext =>
      cases hpr : (processImage w m pid iid cap (mkFilename ts ext)).2 with
      | none => simp [webhook, hr, hpr]
      | some e => simp [webhook, hr, hpr]

/-- Claim C4: an image-type message processed without error performs its
externally visible steps in exactly this order: media-URL GET, media
download GET, file write, EXIF read of the written file, then the two
outbound POSTs. -/
theorem C4_image_success_step_order (w : World) (ts : String)
    (body m pid iid cap : Json) (ext : String)
    (hroute : routeCore body = .ok (m, pid, Route.image iid cap ext))
    (hok : (processImage w m pid iid cap (mkFilename ts ext)).2 = none) :
    ∃ mediaUrl content p1 p2,
      realEffects (webhook w ts body).1 =
        [Effect.httpGet (graphMediaUrl iid), Effect.httpGet mediaUrl,
         Effect.fileWrite ("images/" ++ mkFilename ts ext) content,
         Effect.exifRead ("images/" ++ mkFilename ts ext),
         Effect.httpPost (messagesUrl pid) p1,
         Effect.httpPost (messagesUrl pid) p2] := by
  obtain ⟨mediaUrl, content, mFrom, mId, hshape⟩ :=
    processImage_success_shape w m pid iid cap (mkFilename ts ext) hok
  refine ⟨mediaUrl, content,
    confirmationPayload mFrom mId
      (responseMessage cap
        (w.dumps (get_image_metadata w ("images/" ++ mkFilename ts ext)))),
    readReceiptPayload mId, ?_⟩
  simp [webhook, hroute, hshape, realEffects, List.filter, Effect.isLog]

/-- Concrete instance of C4 on a fully successful run. -/
theorem C4_image_success_step_order_witness :
    ∃ mediaUrl content p1 p2,
      realEffects (webhook happyWorld "100.5" sampleBody).1 =
        [Effect.httpGet (graphMediaUrl (Json.str "MEDIA1")),
         Effect.httpGet mediaUrl,
         Effect.fileWrite ("images/" ++ mkFilename "100.5" "jpeg") content,
         Effect.exifRead ("images/" ++ mkFilename "100.5" "jpeg"),
         Effect.httpPost (messagesUrl (Json.str "PHONE1")) p1,
         Effect.httpPost (messagesUrl (Json.str "PHONE1")) p2] :=
  C4_image_success_step_order happyWorld "100.5" sampleBody cMsg
    (Json.str "PHONE1") (Json.str "MEDIA1") (Json.str "hello") "jpeg" rfl rfl

/-- Claim C5 counterexample: a fully successful image run performs four
outbound HTTP calls (two GETs and two POSTs), not two. -/
theorem C5_cex_four_not_two_http_calls :
    (webhook happyWorld "100.5" sampleBody).2 = .ok okJson ∧
    httpCount (webhook happyWorld "100.5" sampleBody).1 = 4 ∧
    httpCount (webhook happyWorld "100.5" sampleBody).1 ≠ 2 := by
  refine ⟨rfl, rfl, ?_⟩
  decide

/-- Claim C5 (amended): an image-type message processed without error
performs exactly four outbound HTTP calls: the media-URL GET, the download
GET, and the two POSTs. -/
theorem C5_amended_four_http_calls (w : World) (ts : String)
    (body m pid iid cap : Json) (ext : String)
    (hroute : routeCore body = .ok (m, pid, Route.image iid cap ext))
    (hok : (processImage w m pid iid cap (mkFilename ts ext)).2 = none) :
    httpCount (webhook w ts body).1 = 4 := by
  obtain ⟨mediaUrl, content, mFrom, mId, hshape⟩ :=
    processImage_success_shape w m pid iid cap (mkFilename ts ext) hok
  simp [webhook, hroute, hshape, httpCount, List.filter, Effect.isHttp]

/-- Concrete instance of the amended C5. -/
theorem C5_amended_four_http_calls_witness :
    httpCount (webhook happyWorld "100.5" sampleBody).1 = 4 :=
  C5_amended_four_http_calls happyWorld "100.5" sampleBody cMsg
    (Json.str "PHONE1") (Json.str "MEDIA1") (Json.str "hello") "jpeg" rfl rfl

/-- Claim C6 counterexample: in a successful image run the saved file is
written once and then read back once (by the EXIF extraction), the read
coming after the write — contradicting that the file is never read again. -/
theorem C6_cex_saved_file_is_read_back :
    ((webhook happyWorld "100.5" sampleBody).1.filter
      (isWriteTo ("images/" ++ mkFilename "100.5" "jpeg"))).length = 1 ∧
    ((webhook happyWorld "100.5" sampleBody).1.filter
      (isReadOf ("images/" ++ mkFilename "100.5" "jpeg"))).length = 1 ∧
    (webhook happyWorld "100.5" sampleBody).1.findIdx
        (isWriteTo ("images/" ++ mkFilename "100.5" "jpeg")) <
      (webhook happyWorld "100.5" sampleBody).1.findIdx
        (isReadOf ("images/" ++ mkFilename "100.5" "jpeg")) := by
  refine ⟨rfl, rfl, ?_⟩
  decide

/-- Claim C6 (amended): in a successful image run the saved file is written
exactly once under its timestamp-derived name, is read back exactly once,
immediately after the write, by the EXIF extraction, and is touched by
nothing else — in particular it is never deleted. -/
theorem C6_amended_write_once_read_once (w : World) (ts : String)
    (body m pid iid cap : Json) (ext : String)
    (hroute : routeCore body = .ok (m, pid, Route.image iid cap ext))
    (hok : (processImage w m pid iid cap (mkFilename ts ext)).2 = none) :
    ∃ content,
      (webhook w ts body).1.filter (touchesFile ("images/" ++ mkFilename ts ext)) =
        [Effect.fileWrite ("images/" ++ mkFilename ts ext) content,
         Effect.exifRead ("images/" ++ mkFilename ts ext)] := by
  obtain ⟨mediaUrl, content, mFrom, mId, hshape⟩ :=
    processImage_success_shape w m pid iid cap (mkFilename ts ext) hok
  refine ⟨content, ?_⟩
  simp [webhook, hroute, hshape, touchesFile, isWriteTo, isReadOf, List.filter]

/-- Concrete instance of the amended C6. -/
theorem C6_amended_write_once_read_once_witness :
    ∃ content,
      (webhook happyWorld "100.5" sampleBody).1.filter
          (touchesFile ("images/" ++ mkFilename "100.5" "jpeg")) =
        [Effect.fileWrite ("images/" ++ mkFilename "100.5" "jpeg") content,
         Effect.exifRead ("images/" ++ mkFilename "100.5" "jpeg")] :=
  C6_amended_write_once_read_once happyWorld "100.5" sampleBody cMsg
    (Json.str "PHONE1") (Json.str "MEDIA1") (Json.str "hello") "jpeg" rfl rfl

/-- Claim C7 counterexample: two distinct requests (different message ids and
senders) that observe the same timestamp and mime type write files with the
same name, so the timestamp-derived filename is not unique per request. -/
theorem C7_cex_timestamp_collision :
    msgIdOf sampleBody ≠ msgIdOf sampleBody2 ∧
    ((webhook happyWorld "100.5" sampleBody).1.filter
      (isWriteTo ("images/" ++ mkFilename "100.5" "jpeg"))).length = 1 ∧
    ((webhook happyWorld "100.5" sampleBody2).1.filter
      (isWriteTo ("images/" ++ mkFilename "100.5" "jpeg"))).length = 1 := by
  refine ⟨by decide, rfl, rfl⟩

/-- Claim C7 (amended): two requests that observe distinct timestamps and
share a file extension receive distinct filenames; uniqueness is not
guaranteed when the timestamps coincide. -/
theorem C7_amended_distinct_timestamps (ts1 ts2 ext : String) (h : ts1 ≠ ts2) :
    mkFilename ts1 ext ≠ mkFilename ts2 ext := by
  intro he
  apply h
  have hd := congrArg String.data he
  simp only [mkFilename, String.data_append] at hd
  have h1 := List.append_cancel_right hd
  have h2 := List.append_cancel_right h1
  have h3 := List.append_cancel_left h2
  exact String.ext h3

/-- Concrete instance of the amended C7. -/
theorem C7_amended_distinct_timestamps_witness :
    mkFilename "100.5" "jpeg" ≠ mkFilename "100.6" "jpeg" :=
  C7_amended_distinct_timestamps "100.5" "100.6" "jpeg" (by decide)

/-- Claim C9: `get_image_metadata` is total: it returns the EXIF dictionary
(tag ids resolved through `TAGS`, values stringified) when EXIF data is
present and nonempty, the "No EXIF data found" error entry when it is `None`
or empty, and the stringified exception as an error entry when opening or
reading raises. -/
theorem C9_get_image_metadata_total (w : World) (path : String) :
    (∀ e, w.openImage path = .error e →
      get_image_metadata w path = [(Sum.inl "error", e.pyStr)]) ∧
    (w.openImage path = .ok none →
      get_image_metadata w path = [(Sum.inl "error", "No EXIF data found")]) ∧
    (w.openImage path = .ok (some []) →
      get_image_metadata w path = [(Sum.inl "error", "No EXIF data found")]) ∧
    (∀ x xs, w.openImage path = .ok (some (x :: xs)) →
      get_image_metadata w path = exifFold w.TAGS (x :: xs)) := by
  refine ⟨fun e he => ?_, fun h => ?_, fun h => ?_, fun x xs h => ?_⟩
  · simp [get_image_metadata, he]
  · simp [get_image_metadata, h]
  · simp [get_image_metadata, h]
  · simp [get_image_metadata, h]

/-- Concrete instances of C9: an opening failure, an image without EXIF data,
and an image with EXIF data. -/
theorem C9_get_image_metadata_total_witness :
    get_image_metadata openFailWorld "images/x.jpeg" =
      [(Sum.inl "error", (PyErr.ioError "boom").pyStr)] ∧
    get_image_metadata noExifWorld "images/x.jpeg" =
      [(Sum.inl "error", "No EXIF data found")] ∧
    get_image_metadata happyWorld "images/x.jpeg" =
      exifFold happyWorld.TAGS [(271, ⟨"Canon"⟩)] :=
  ⟨(C9_get_image_metadata_total openFailWorld "images/x.jpeg").1
      (PyErr.ioError "boom") rfl,
   (C9_get_image_metadata_total noExifWorld "images/x.jpeg").2.1 rfl,
   (C9_get_image_metadata_total happyWorld "images/x.jpeg").2.2.2
      (271, ⟨"Canon"⟩) [] rfl⟩

/-- Claim C10: a payload whose extracted message has any type other than
"image" (text, missing, or defaulted from an empty payload) causes no file
write, no EXIF read and no outbound HTTP call, and the handler returns ok. -/
theorem C10_non_image_no_effects (w : World) (ts : String)
    (body m pid : Json) (r : Route)
    (hroute : routeCore body = .ok (m, pid, r))
    (him : ∀ iid cap ext, r ≠ Route.image iid cap ext) :
    (webhook w ts body).2 = .ok okJson ∧
    realEffects (webhook w ts body).1 = [] := by
  cases r with
  | text =>
    exact ⟨by simp [webhook, hroute],
      by simp [webhook, hroute, realEffects, List.filter, Effect.isLog]⟩
  | other =>
    exact ⟨by simp [webhook, hroute],
      by simp [webhook, hroute, realEffects, List.filter, Effect.isLog]⟩
  | image iid cap ext => exact absurd rfl (him iid cap ext)

/-- Concrete instance of C10 on a text message. -/
theorem C10_non_image_no_effects_witness :
    (webhook happyWorld "100.5" textBody).2 = .ok okJson ∧
    realEffects (webhook happyWorld "100.5" textBody).1 = [] :=
  C10_non_image_no_effects happyWorld "100.5" textBody
    (Json.obj
      [("type", Json.str "text"), ("from", Json.str "15557772222"),
       ("id", Json.str "wamid.T")])
    (Json.str "PHONE1") Route.text rfl
    (fun _ _ _ h => Route.noConfusion h)

end Wapp
